import Mathlib

/-!
Verification of the nb_explainify notebook-transformation pipeline.

The development shallowly embeds the two core modules of the repository,
`nb_explainify/llm_processor.py` (the generation gateway `LLMProcessor`) and
`nb_explainify/notebook_processor.py` (the `NotebookProcessor` pipeline), and
proves or refutes the stated properties of the natural-language specification.

Modelling choices:
* Python strings are modelled as `List Char` (`PyStr`), with the Python string
  operations (`strip`, `startswith`, `endswith`, slicing, `in`, `find`)
  implemented structurally so that all definitions evaluate on concrete input.
* The external world (the OpenAI chat-completion transport together with the
  prompt construction feeding it, the black formatter, and the file system)
  is abstracted into an `Ext` record of response functions: each generation
  operation of `LLMProcessor` receives the raw response text (or a transport
  failure) from the corresponding `Ext` field, and then performs exactly the
  post-processing the Python code performs on it.
* Python exceptions are modelled with `Except PyErr`; a `try N except: warn`
  block is modelled by matching on the `Except` value and keeping the prior
  state in the error case.
-/

namespace NbExplainify

/-- Python strings, modelled as lists of characters. -/
abbrev PyStr := List Char

/-- The Python exception classes that the modelled code paths can raise. -/
inductive PyErr where
  | valueError (msg : String)
  | attributeError (msg : String)
  | typeError (msg : String)
  | exn (msg : String)
  deriving DecidableEq, Repr

/-- Characters removed by the Python string method strip(). -/
def isPySpace (c : Char) : Bool :=
  c = ' ' || c = '\t' || c = '\n' || c = '\x0d' || c = '\x0b' || c = '\x0c'

/-- Python strip(): remove leading and trailing whitespace. -/
def pyStrip (s : PyStr) : PyStr :=
  ((s.dropWhile isPySpace).reverse.dropWhile isPySpace).reverse

/-- Helper for `substrFind`: first index at or after `i` where `pat` occurs. -/
def substrFindAux (pat : PyStr) : PyStr → Nat → Option Nat
  | [], i => if pat.isEmpty then some i else none
  | l@(_ :: cs), i => if pat.isPrefixOf l then some i else substrFindAux pat cs (i + 1)

/-- Python str.find as an Option: index of the first occurrence of `pat` in `s`. -/
def substrFind (s pat : PyStr) : Option Nat :=
  substrFindAux pat s 0

/-- Python membership test `pat in s` for strings. -/
def pyContains (s pat : PyStr) : Bool :=
  (substrFind s pat).isSome

/-- Cell kinds of the notebook container; kinds other than code and markdown
(for example raw) pass through the pipeline untouched. -/
inductive CellType where
  | code
  | markdown
  | raw
  deriving DecidableEq, Repr

/-- One notebook cell: a kind tag and mutable text content, mirroring
`cell.cell_type` and `cell.source` of the nbformat cells the code manipulates. -/
structure Cell where
  cell_type : CellType
  source : PyStr
  deriving DecidableEq, Repr

/-- Boolean test used throughout: is this a code cell. -/
def isCode (c : Cell) : Bool :=
  c.cell_type == CellType.code

/-- Number of code cells in a cell list. -/
def countCode (cells : List Cell) : Nat :=
  (cells.filter isCode).length

/-- Abstract model of everything outside the two embedded modules: the value of
the OPENAI_API_KEY environment variable, the chat-completion responses for each
generation operation (each field stands for prompt construction plus transport
and is indexed by the arguments the Python code feeds into the prompt), the
black formatter, and the file-system write performed by save_notebook. -/
structure Ext where
  api_key : Option PyStr
  respComment : PyStr → Option (List PyStr) → Except PyErr PyStr
  respOptimize : PyStr → Except PyErr PyStr
  respExplain : PyStr → Option (List PyStr) → Except PyErr PyStr
  respEnhance : PyStr → PyStr → Option (List PyStr) → Except PyErr PyStr
  respIntro : List (CellType × PyStr) → Except PyErr PyStr
  respSummary : List (CellType × PyStr) → Except PyErr PyStr
  fmt : PyStr → Except PyErr PyStr
  write : PyStr → List Cell → Except PyErr Unit

/-- Python truthiness of an optional string: None and the empty string are falsy. -/
def pyFalsyStr : Option PyStr → Bool
  | none => true
  | some s => s.isEmpty

/-- Model of LLMProcessor init, llm_processor.py lines 104-129: reads
OPENAI_API_KEY and raises ValueError when it is missing or empty; otherwise the
client is constructed and the call succeeds. -/
def LLMProcessor.init (ext : Ext) : Except PyErr Unit :=
  if pyFalsyStr ext.api_key then
    Except.error (PyErr.valueError "OPENAI_API_KEY must be set in .env file")
  else Except.ok ()

/-- Model of LLMProcessor private clean-response helper, llm_processor.py lines
131-140: strip whitespace, then drop a leading python code fence, then a
leading bare fence, then a trailing fence, re-stripping after each removal. -/
def cleanResponse (response : PyStr) : PyStr :=
  let r := pyStrip response
  let r := if "```python".toList.isPrefixOf r then pyStrip (r.drop "```python".toList.length) else r
  let r := if "```".toList.isPrefixOf r then pyStrip (r.drop 3) else r
  let r := if "```".toList.isSuffixOf r then pyStrip (r.take (r.length - 3)) else r
  r

/-- Model of LLMProcessor.add_comments_to_code, llm_processor.py lines 142-173:
empty code is returned unchanged without a generation call; otherwise the raw
response is cleaned of code fences, and a transport failure is re-raised as a
generic Exception. -/
def add_comments_to_code (ext : Ext) (code : PyStr) (context : Option (List PyStr)) :
    Except PyErr PyStr :=
  if (pyStrip code).isEmpty then Except.ok code
  else
    match ext.respComment code context with
    | Except.ok content => Except.ok (cleanResponse content)
    | Except.error _ => Except.error (PyErr.exn "Error generating comments")

/-- The five code-start markers scanned for by the optimize post-processing,
llm_processor.py line 210, in declaration order. -/
def codeMarkers : List PyStr :=
  ["def ".toList, "class ".toList, "import ".toList, "from ".toList, "#".toList]

/-- One step of the marker scan of llm_processor.py lines 211-215: keep the
smaller of the running start index and the position of this marker, if found. -/
def markerStep (s : PyStr) (acc : Nat) (m : PyStr) : Nat :=
  match substrFind s m with
  | some pos => if pos < acc then pos else acc
  | none => acc

/-- The start index computed by the marker scan of llm_processor.py lines
211-215: the fold over the five markers starting from the response length. -/
def truncStart (s : PyStr) : Nat :=
  codeMarkers.foldl (markerStep s) s.length

/-- Model of LLMProcessor.optimize_code, llm_processor.py lines 175-220. The
method takes only `code` (no context parameter). The input is stripped; empty
input short-circuits. The response is cleaned of code fences and then, only
when the stripped original contains one of the three guard markers with a
trailing space (def, class, import), truncated to the earliest occurrence of
any of the five markers of `codeMarkers`. -/
def optimize_code (ext : Ext) (code0 : PyStr) : Except PyErr PyStr :=
  let code := pyStrip code0
  if code.isEmpty then Except.ok code
  else
    match ext.respOptimize code with
    | Except.error _ => Except.error (PyErr.exn "Error optimizing code")
    | Except.ok content =>
      let optimized := cleanResponse content
      let optimized :=
        if pyContains code "def ".toList || pyContains code "class ".toList
            || pyContains code "import ".toList then
          pyStrip (optimized.drop (truncStart optimized))
        else optimized
      Except.ok optimized

/-- Model of LLMProcessor.generate_markdown_explanation, llm_processor.py lines
222-250: the raw response content is returned after a whitespace strip only (no
call to the clean-response helper is made); a transport failure is re-raised as
a generic Exception. -/
def generate_markdown_explanation (ext : Ext) (code : PyStr) (context : Option (List PyStr)) :
    Except PyErr PyStr :=
  match ext.respExplain code context with
  | Except.ok content => Except.ok (pyStrip content)
  | Except.error _ => Except.error (PyErr.exn "Error generating markdown explanation")

/-- Model of LLMProcessor.enhance_markdown_explanation, llm_processor.py lines
252-283: on success the stripped response is returned; on failure a warning is
printed and the existing markdown is returned unchanged. -/
def enhance_markdown_explanation (ext : Ext) (existing_markdown code : PyStr)
    (context : Option (List PyStr)) : PyStr :=
  match ext.respEnhance existing_markdown code context with
  | Except.ok content => pyStrip content
  | Except.error _ => existing_markdown

/-- Model of LLMProcessor.generate_notebook_intro, llm_processor.py lines
285-313: single call over the whole (kind, content) list; stripped response. -/
def generate_notebook_intro (ext : Ext) (notebook_cells : List (CellType × PyStr)) :
    Except PyErr PyStr :=
  match ext.respIntro notebook_cells with
  | Except.ok content => Except.ok (pyStrip content)
  | Except.error _ => Except.error (PyErr.exn "Error generating notebook introduction")

/-- Model of LLMProcessor.generate_notebook_summary, llm_processor.py lines
315-343: single call over the whole (kind, content) list; stripped response. -/
def generate_notebook_summary (ext : Ext) (notebook_cells : List (CellType × PyStr)) :
    Except PyErr PyStr :=
  match ext.respSummary notebook_cells with
  | Except.ok content => Except.ok (pyStrip content)
  | Except.error _ => Except.error (PyErr.exn "Error generating notebook summary")

/-- State of a NotebookProcessor instance. The field `notebook` is the loaded
cell list (None before a successful load, as set in notebook_processor.py line
16). The field `notebook_path` models the instance attribute of that name read
by save_notebook (line 240); `none` stands for the attribute never having been
assigned, whose access raises AttributeError in Python. -/
structure ProcState where
  notebook : Option (List Cell)
  notebook_path : Option PyStr
  deriving DecidableEq, Repr

/-- Per-cell step of NotebookProcessor.format_code_cells, notebook_processor.py
lines 64-69: black is applied to each code cell; a per-cell failure is caught,
a warning is printed and that cell is left unchanged. -/
def formatCellStep (ext : Ext) (c : Cell) : Cell :=
  if c.cell_type = CellType.code then
    match ext.fmt c.source with
    | Except.ok s => { c with source := s }
    | Except.error _ => c
  else c

/-- Model of NotebookProcessor.format_code_cells, notebook_processor.py lines
52-69, acting on the loaded cell list: in-place mutation of each code cell is
an index-preserving map. -/
def format_code_cells (ext : Ext) (cells : List Cell) : List Cell :=
  cells.map (formatCellStep ext)

/-- Per-cell step of NotebookProcessor.add_comments_to_code_cells,
notebook_processor.py lines 81-87: the gateway call passes only cell.source,
leaving the context parameter at its Python default None; a per-cell failure is
caught and the cell left unchanged. -/
def commentCellStep (ext : Ext) (c : Cell) : Cell :=
  if c.cell_type = CellType.code then
    match add_comments_to_code ext c.source none with
    | Except.ok s => { c with source := s }
    | Except.error _ => c
  else c

/-- Model of NotebookProcessor.add_comments_to_code_cells, notebook_processor.py
lines 71-87. A gateway LLMProcessor is constructed first (its ValueError on a
missing key escapes the pass). The loop mutates each code cell in place, which
is an index-preserving map because the per-cell call depends only on that cell;
the second component records the arguments (code, context) of the
add_comments_to_code call made for each code cell, in order: the call on line
84 passes no context, so every recorded context is None. -/
def add_comments_to_code_cells (ext : Ext) (cells : List Cell) :
    Except PyErr (List Cell × List (PyStr × Option (List PyStr))) :=
  match LLMProcessor.init ext with
  | Except.error e => Except.error e
  | Except.ok _ =>
    Except.ok (cells.map (commentCellStep ext),
      (cells.filter isCode).map (fun c => (c.source, none)))

/-- Python evaluation of the call `llm.optimize_code(cell.source, context)` on
notebook_processor.py line 105: the method signature on llm_processor.py line
175 is `optimize_code(self, code)`, so the extra positional argument makes the
call raise TypeError before the method body ever runs. -/
def optimize_code_call2 (ext : Ext) (code : PyStr) (context : List PyStr) :
    Except PyErr PyStr :=
  Except.error (PyErr.typeError "optimize_code takes 2 positional arguments but 3 were given")

/-- Loop body of NotebookProcessor.optimize_code_cells, notebook_processor.py
lines 97-109: walk the cells threading the accumulated context; on a successful
call the cell is rewritten and its new source appended to the context, on a
failure the cell is kept and the context not extended. The second component
records the arguments (code, context) of each attempted per-cell call. -/
def optimizeLoop (ext : Ext) : List Cell → List PyStr → List Cell × List (PyStr × List PyStr)
  | [], _ => ([], [])
  | cell :: cs, context =>
    if cell.cell_type = CellType.code then
      match optimize_code_call2 ext cell.source context with
      | Except.ok s =>
        let rest := optimizeLoop ext cs (context ++ [s])
        ({ cell with source := s } :: rest.1, (cell.source, context) :: rest.2)
      | Except.error _ =>
        let rest := optimizeLoop ext cs context
        (cell :: rest.1, (cell.source, context) :: rest.2)
    else
      let rest := optimizeLoop ext cs context
      (cell :: rest.1, rest.2)

/-- Model of NotebookProcessor.optimize_code_cells, notebook_processor.py lines
89-109: gateway construction first, then the context-threading loop starting
from the empty context. -/
def optimize_code_cells (ext : Ext) (cells : List Cell) :
    Except PyErr (List Cell × List (PyStr × List PyStr)) :=
  match LLMProcessor.init ext with
  | Except.error e => Except.error e
  | Except.ok _ => Except.ok (optimizeLoop ext cells [])

/-- Loop of NotebookProcessor.add_markdown_explanations, notebook_processor.py
lines 117-131: for each code cell, generate an explanation from the current
context and insert a new markdown cell right before it (on failure, warn and
skip the insertion); in both cases the code source is appended to the context.
Non-code cells are copied through. -/
def markdownLoop (ext : Ext) : List Cell → List PyStr → List Cell
  | [], _ => []
  | cell :: cs, context =>
    if cell.cell_type = CellType.code then
      match generate_markdown_explanation ext cell.source (some context) with
      | Except.ok md =>
        Cell.mk CellType.markdown md :: cell :: markdownLoop ext cs (context ++ [cell.source])
      | Except.error _ => cell :: markdownLoop ext cs (context ++ [cell.source])
    else cell :: markdownLoop ext cs context

/-- Model of NotebookProcessor.add_markdown_explanations, notebook_processor.py
lines 111-131: gateway construction first (its ValueError escapes the pass),
then the insertion walk starting from the empty context. -/
def add_markdown_explanations (ext : Ext) (cells : List Cell) : Except PyErr (List Cell) :=
  match LLMProcessor.init ext with
  | Except.error e => Except.error e
  | Except.ok _ => Except.ok (markdownLoop ext cells [])

/-- Model of NotebookProcessor.add_intro, notebook_processor.py lines 133-146:
gateway construction first (uncaught), then one generation call over the whole
(kind, content) list; on success the markdown intro is inserted at position 0,
on failure a warning is printed and the cells are unchanged. -/
def add_intro (ext : Ext) (cells : List Cell) : Except PyErr (List Cell) :=
  match LLMProcessor.init ext with
  | Except.error e => Except.error e
  | Except.ok _ =>
    match generate_notebook_intro ext (cells.map fun c => (c.cell_type, c.source)) with
    | Except.ok intro => Except.ok (Cell.mk CellType.markdown intro :: cells)
    | Except.error _ => Except.ok cells

/-- Model of NotebookProcessor.add_summary, notebook_processor.py lines 148-161:
like add_intro but the markdown summary is appended at the end. -/
def add_summary (ext : Ext) (cells : List Cell) : Except PyErr (List Cell) :=
  match LLMProcessor.init ext with
  | Except.error e => Except.error e
  | Except.ok _ =>
    match generate_notebook_summary ext (cells.map fun c => (c.cell_type, c.source)) with
    | Except.ok summary => Except.ok (cells ++ [Cell.mk CellType.markdown summary])
    | Except.error _ => Except.ok cells

/-- Python expression `output_path or self.notebook_path` on
notebook_processor.py line 240, evaluated before the try block: when
output_path is falsy (None or empty), the notebook_path attribute is read, and
an unassigned attribute raises AttributeError. -/
def resolve_save_path (output_path : Option PyStr) (notebook_path_attr : Option PyStr) :
    Except PyErr PyStr :=
  match output_path with
  | some p =>
    if p.isEmpty then
      match notebook_path_attr with
      | none => Except.error (PyErr.attributeError "NotebookProcessor object has no attribute notebook_path")
      | some q => Except.ok q
    else Except.ok p
  | none =>
    match notebook_path_attr with
    | none => Except.error (PyErr.attributeError "NotebookProcessor object has no attribute notebook_path")
    | some q => Except.ok q

/-- Model of NotebookProcessor.save_notebook, notebook_processor.py lines
226-246: ValueError when no notebook is loaded; then the save path is resolved
(outside the try block, so an AttributeError propagates raw); the file write is
wrapped, re-raising any failure as a generic Exception. -/
def save_notebook (ext : Ext) (st : ProcState) (output_path : Option PyStr) :
    Except PyErr Unit :=
  match st.notebook with
  | none => Except.error (PyErr.valueError "Notebook has not been loaded")
  | some nb =>
    match resolve_save_path output_path st.notebook_path with
    | Except.error e => Except.error e
    | Except.ok save_path =>
      match ext.write save_path nb with
      | Except.ok _ => Except.ok ()
      | Except.error _ => Except.error (PyErr.exn "Error saving notebook")

/-- The six pipeline passes of explainify_notebook. -/
inductive Pass where
  | intro
  | format
  | markdown
  | optimize
  | comment
  | summary
  deriving DecidableEq, Repr

/-- The keyword flags of explainify_notebook, notebook_processor.py lines
163-166, in the order of the Python signature. -/
structure Flags where
  to_format : Bool
  to_comment : Bool
  to_optimize : Bool
  to_markdown : Bool
  to_intro : Bool
  to_summary : Bool
  deriving DecidableEq, Repr

/-- Whether a given pass is enabled by a flag configuration. -/
def passEnabled (f : Flags) : Pass → Bool
  | Pass.intro => f.to_intro
  | Pass.format => f.to_format
  | Pass.markdown => f.to_markdown
  | Pass.optimize => f.to_optimize
  | Pass.comment => f.to_comment
  | Pass.summary => f.to_summary

/-- The try-except wrapper explainify_notebook puts around each pass body:
a failing pass prints a warning and leaves the cell list as it was. -/
def catchPass (orig : List Cell) (r : Except PyErr (List Cell)) : List Cell :=
  match r with
  | Except.ok cs => cs
  | Except.error _ => orig

/-- Model of NotebookProcessor.explainify_notebook, notebook_processor.py lines
163-224. Raises ValueError when no notebook is loaded; otherwise runs the
enabled passes in the textual order of the method body: intro (181-186), format
(188-190), markdown (192-197), optimize (199-204), comment (206-211), summary
(213-218), each generation pass wrapped so that its failure becomes a warning,
then calls save_notebook inside a try block whose failure also becomes a
warning (220-224). The result carries the final state, the list of passes that
were run in order, and the warning produced by a failed save, if any. -/
def explainify_notebook (ext : Ext) (st : ProcState) (output_path : PyStr) (f : Flags) :
    Except PyErr (ProcState × List Pass × Option PyErr) :=
  match st.notebook with
  | none => Except.error (PyErr.valueError "Notebook has not been loaded")
  | some cells0 =>
    let c1 := if f.to_intro then catchPass cells0 (add_intro ext cells0) else cells0
    let c2 := if f.to_format then format_code_cells ext c1 else c1
    let c3 := if f.to_markdown then catchPass c2 (add_markdown_explanations ext c2) else c2
    let c4 := if f.to_optimize then
        catchPass c3 (Except.map Prod.fst (optimize_code_cells ext c3)) else c3
    let c5 := if f.to_comment then
        catchPass c4 (Except.map Prod.fst (add_comments_to_code_cells ext c4)) else c4
    let c6 := if f.to_summary then catchPass c5 (add_summary ext c5) else c5
    let st' : ProcState := { notebook := some c6, notebook_path := st.notebook_path }
    let save_warn :=
      match save_notebook ext st' (some output_path) with
      | Except.ok _ => (none : Option PyErr)
      | Except.error e => some e
    let trace :=
      (if f.to_intro then [Pass.intro] else []) ++
      (if f.to_format then [Pass.format] else []) ++
      (if f.to_markdown then [Pass.markdown] else []) ++
      (if f.to_optimize then [Pass.optimize] else []) ++
      (if f.to_comment then [Pass.comment] else []) ++
      (if f.to_summary then [Pass.summary] else [])
    Except.ok (st', trace, save_warn)

/-- Model of NotebookProcessor.load_notebook, notebook_processor.py lines
20-28: on a successful read the notebook field is set; a read failure is
re-raised. No other attribute is assigned. The function `load` abstracts the
file system together with nbformat.read. -/
def load_notebook (load : PyStr → Except PyErr (List Cell)) (st : ProcState) (p : PyStr) :
    Except PyErr ProcState :=
  match load p with
  | Except.ok nb => Except.ok { notebook := some nb, notebook_path := st.notebook_path }
  | Except.error _ => Except.error (PyErr.exn "Error loading notebook")

/-- Model of NotebookProcessor init, notebook_processor.py lines 10-18: the
notebook field starts as None, and when a truthy path is supplied the notebook
is loaded. The notebook_path attribute is never assigned. -/
def NotebookProcessor.new (load : PyStr → Except PyErr (List Cell))
    (notebook_path : Option PyStr) : Except PyErr ProcState :=
  let st0 : ProcState := { notebook := none, notebook_path := none }
  match notebook_path with
  | none => Except.ok st0
  | some p => if p.isEmpty then Except.ok st0 else load_notebook load st0 p

/-- States a NotebookProcessor can be in after construction followed by any
number of successful load_notebook calls. -/
inductive Reached (load : PyStr → Except PyErr (List Cell)) : ProcState → Prop where
  | new : ∀ p st, NotebookProcessor.new load p = Except.ok st → Reached load st
  | load_more : ∀ st p st', Reached load st → load_notebook load st p = Except.ok st' →
      Reached load st'

/-- Pass order stated by the specification. Modelled from the spec: introduction,
then markdown-explanation insertion, then code optimization, then code comment
insertion, then summary, then code formatting last. -/
def claimedOrder : List Pass :=
  [Pass.intro, Pass.markdown, Pass.optimize, Pass.comment, Pass.summary, Pass.format]

/-- Pass order of the method body of explainify_notebook as written,
notebook_processor.py lines 181-218. -/
def actualOrder : List Pass :=
  [Pass.intro, Pass.format, Pass.markdown, Pass.optimize, Pass.comment, Pass.summary]

/-- Optimize post-processing as the specification words it. Modelled from the
spec: truncation applies whenever the original input contained any of the five
markers; otherwise the whole cleaned response is kept. -/
def optimizeTruncSpecClaimed (code optimized : PyStr) : PyStr :=
  if codeMarkers.any (fun m => pyContains code m) then
    pyStrip (optimized.drop (truncStart optimized))
  else optimized

/-- The index i is the position of the earliest occurrence in s of any of the
five code markers (earliest index wins), or the length of s when no marker
occurs. -/
def EarliestMarkerIdx (s : PyStr) (i : Nat) : Prop :=
  i ≤ s.length
  ∧ (∀ m ∈ codeMarkers, ∀ p, substrFind s m = some p → i ≤ p)
  ∧ (i = s.length ∨ ∃ m ∈ codeMarkers, substrFind s m = some i)

/-- The three non-inserting passes of the order-preservation property. -/
inductive NIPass where
  | optimize
  | comment
  | format
  deriving DecidableEq, Repr

/-- Run one non-inserting pass the way explainify_notebook runs it: the comment
and optimize passes are wrapped so a pass-level failure leaves the cells
unchanged, and the format pass catches its failures per cell internally. -/
def runNIPass (ext : Ext) (cells : List Cell) : NIPass → List Cell
  | NIPass.format => format_code_cells ext cells
  | NIPass.comment => catchPass cells (Except.map Prod.fst (add_comments_to_code_cells ext cells))
  | NIPass.optimize => catchPass cells (Except.map Prod.fst (optimize_code_cells ext cells))

/-- Run any chosen sequence of non-inserting passes in order. -/
def runNIPasses (ext : Ext) (ps : List NIPass) (cells : List Cell) : List Cell :=
  ps.foldl (runNIPass ext) cells

/-- A concrete external environment in which every collaborator call succeeds;
used to evaluate the model at concrete inputs. -/
def extOk : Ext :=
  { api_key := some "k".toList
    respComment := fun code _ => Except.ok ("# note\n".toList ++ code)
    respOptimize := fun code => Except.ok code
    respExplain := fun _ _ => Except.ok "An explanation.".toList
    respEnhance := fun _ _ _ => Except.ok "Better.".toList
    respIntro := fun _ => Except.ok "Intro.".toList
    respSummary := fun _ => Except.ok "Summary.".toList
    fmt := fun s => Except.ok s
    write := fun _ _ => Except.ok () }

/-- The environment of extOk with the generation-service credential missing. -/
def extNoKey : Ext := { extOk with api_key := none }

/-- The environment of extOk in which the final file write fails. -/
def extBadSave : Ext := { extOk with write := fun _ _ => Except.error (PyErr.exn "disk full") }

/-- The environment of extOk in which the optimize response is prose followed
by the code. -/
def extHash : Ext := { extOk with respOptimize := fun _ => Except.ok "Here:\n# comment only".toList }

/-- The environment of extOk realizing the marker-truncation example of the
specification. -/
def extC5 : Ext :=
  { extOk with respOptimize := fun _ => Except.ok "Here you go:\ndef f(): pass".toList }

/-- The environment of extOk in which the explanation response arrives wrapped
in a python code fence. -/
def extFence : Ext :=
  { extOk with respExplain := fun _ _ => Except.ok "```python\nprint(1)\n```".toList }

/-- The environment of extOk in which the enhancement call fails. -/
def extFail9 : Ext :=
  { extOk with respEnhance := fun _ _ _ => Except.error (PyErr.exn "boom") }

/-- All six pipeline flags enabled (the Python defaults). -/
def allFlags : Flags := ⟨true, true, true, true, true, true⟩

/-- A two-code-cell notebook in which the second cell references the first. -/
def cells2 : List Cell :=
  [Cell.mk CellType.code "a = 1".toList, Cell.mk CellType.code "b = a + 1".toList]

/-- A three-cell notebook with two code cells around a markdown cell. -/
def cellsW : List Cell :=
  [Cell.mk CellType.code "x = 1".toList, Cell.mk CellType.markdown "intro text".toList,
   Cell.mk CellType.code "y = x".toList]

/-- A concrete loader that always returns the empty notebook. -/
def loadW : PyStr → Except PyErr (List Cell) := fun _ => Except.ok []

/-- The explanation generator realized by extOk. -/
def genW : PyStr → Option (List PyStr) → PyStr := fun _ _ => "An explanation.".toList

end NbExplainify

namespace NbExplainify

/-- Claim C9: for every existing markdown, code and context, when the generation
call inside enhance_markdown_explanation fails, the operation does not raise:
it returns the existing markdown unchanged (soft-fail, logged as a warning). -/
theorem c9_enhance_soft_fail (ext : Ext) (existing code : PyStr)
    (context : Option (List PyStr)) (e : PyErr)
    (h : ext.respEnhance existing code context = Except.error e) :
    enhance_markdown_explanation ext existing code context = existing := by
  simp [enhance_markdown_explanation, h]

/-- Witness for claim C9, at a concrete environment whose enhancement call fails. -/
theorem c9_enhance_soft_fail_witness :
    enhance_markdown_explanation extFail9 "keep this".toList "x = 1".toList none
      = "keep this".toList :=
  c9_enhance_soft_fail extFail9 "keep this".toList "x = 1".toList none (PyErr.exn "boom") rfl

/-- Counterexample to claim C8 as stated: a response arriving wrapped in a python
code fence is returned by generate_markdown_explanation with the fence markers
intact, although the clean-response helper would have stripped them to the bare
content; the explain operation does not strip code fences. -/
theorem c8_counterexample :
    generate_markdown_explanation extFence "x = 1".toList none
      = Except.ok "```python\nprint(1)\n```".toList
    ∧ cleanResponse "```python\nprint(1)\n```".toList = "print(1)".toList
    ∧ "```python\nprint(1)\n```".toList ≠ "print(1)".toList :=
  ⟨rfl, rfl, by decide⟩

/-- Claim C8 amended: for every code input and context, generate_markdown_explanation
post-processes the raw generation response by stripping leading and trailing
whitespace only; code-fence markers are not removed. -/
theorem c8_explain_strip_only (ext : Ext) (code : PyStr) (context : Option (List PyStr))
    (content : PyStr) (h : ext.respExplain code context = Except.ok content) :
    generate_markdown_explanation ext code context = Except.ok (pyStrip content) := by
  simp [generate_markdown_explanation, h]

/-- Witness for the amended claim C8, at a concrete successful environment. -/
theorem c8_explain_strip_only_witness :
    generate_markdown_explanation extOk "x = 1".toList none
      = Except.ok (pyStrip "An explanation.".toList) :=
  c8_explain_strip_only extOk "x = 1".toList none "An explanation.".toList rfl

theorem load_notebook_path_eq (load : PyStr → Except PyErr (List Cell)) (st : ProcState)
    (p : PyStr) (st' : ProcState) (h : load_notebook load st p = Except.ok st') :
    st'.notebook_path = st.notebook_path := by
  unfold load_notebook at h
  rcases hl : load p with e | nb
  · rw [hl] at h
    cases h
  · rw [hl] at h
    cases h
    rfl

theorem reached_path_none (load : PyStr → Except PyErr (List Cell)) (st : ProcState)
    (hr : Reached load st) : st.notebook_path = none := by
  induction hr with
  | new p st h =>
    unfold NotebookProcessor.new at h
    rcases p with _ | p
    · cases h; rfl
    · by_cases hp : p.isEmpty
      · simp [hp] at h
        rw [← h]
      · simp [hp] at h
        exact load_notebook_path_eq load _ p st h
  | load_more st p st' hr hl ih =>
    rw [load_notebook_path_eq load st p st' hl]
    exact ih

/-- Claim C10: for every NotebookProcessor state reachable through construction
and successful loads on which a notebook has been loaded, calling save_notebook
with output_path omitted raises AttributeError, because the notebook_path
attribute it falls back to is never assigned; the documented overwrite behavior
is unreachable. -/
theorem c10_save_none_raises (load : PyStr → Except PyErr (List Cell)) (ext : Ext)
    (st : ProcState) (nb : List Cell) (hr : Reached load st) (hnb : st.notebook = some nb) :
    save_notebook ext st none
      = Except.error (PyErr.attributeError "NotebookProcessor object has no attribute notebook_path") := by
  have hpath : st.notebook_path = none := reached_path_none load st hr
  simp [save_notebook, hnb, resolve_save_path, hpath]

/-- Witness for claim C10, at a processor freshly constructed with a path. -/
theorem c10_save_none_raises_witness :
    save_notebook extOk { notebook := some [], notebook_path := none } none
      = Except.error (PyErr.attributeError "NotebookProcessor object has no attribute notebook_path") :=
  c10_save_none_raises loadW extOk { notebook := some [], notebook_path := none } []
    (Reached.new (some "nb.ipynb".toList) _ rfl) rfl

theorem filter_actualOrder (f : Flags) :
    actualOrder.filter (passEnabled f) =
      (if f.to_intro then [Pass.intro] else []) ++
      (if f.to_format then [Pass.format] else []) ++
      (if f.to_markdown then [Pass.markdown] else []) ++
      (if f.to_optimize then [Pass.optimize] else []) ++
      (if f.to_comment then [Pass.comment] else []) ++
      (if f.to_summary then [Pass.summary] else []) := by
  rcases f with ⟨a, b, c, d, e, g⟩
  cases a <;> cases b <;> cases c <;> cases d <;> cases e <;> cases g <;> rfl

/-- Counterexample to claim C2 as stated: with every pass enabled, the executed
pass order is introduction, formatting, markdown, optimization, commenting,
summary, which differs from the order the specification claims (with formatting
last). -/
theorem c2_counterexample :
    Except.map (fun r => r.2.1)
        (explainify_notebook extOk { notebook := some [], notebook_path := none }
          "out.ipynb".toList allFlags)
      = Except.ok actualOrder
    ∧ claimedOrder.filter (passEnabled allFlags) = claimedOrder
    ∧ actualOrder ≠ claimedOrder :=
  ⟨rfl, rfl, by decide⟩

/-- Claim C2 amended: for every configuration of pass flags, explainify_notebook
executes exactly the enabled passes, in the fixed order introduction, then code
formatting, then markdown-explanation insertion, then code optimization, then
code comment insertion, then summary; no configuration can reorder the passes,
but formatting runs second, not last. -/
theorem c2_fixed_order (ext : Ext) (cells : List Cell) (np : Option PyStr) (out : PyStr)
    (f : Flags) :
    Except.map (fun r => r.2.1)
        (explainify_notebook ext { notebook := some cells, notebook_path := np } out f)
      = Except.ok (actualOrder.filter (passEnabled f)) := by
  rw [filter_actualOrder]
  rfl

/-- Counterexample to claim C3 as stated: on a loaded notebook whose final file
write fails, explainify_notebook still returns normally, recording the save
failure only as a warning; a serialization failure is not raised to the
caller. -/
theorem c3_counterexample :
    explainify_notebook extBadSave { notebook := some [], notebook_path := none }
        "out.ipynb".toList allFlags
      = Except.ok ({ notebook := some [Cell.mk CellType.markdown "Intro.".toList,
            Cell.mk CellType.markdown "Summary.".toList], notebook_path := none },
          actualOrder, some (PyErr.exn "Error saving notebook"))
    ∧ save_notebook extBadSave { notebook := some [Cell.mk CellType.markdown "Intro.".toList,
          Cell.mk CellType.markdown "Summary.".toList], notebook_path := none }
        (some "out.ipynb".toList)
      = Except.error (PyErr.exn "Error saving notebook") :=
  ⟨rfl, rfl⟩

/-- Claim C3 amended: explainify_notebook raises to its caller exactly when the
notebook was never successfully loaded; every per-cell and per-pass failure and
also a final save failure are caught and downgraded to warnings. -/
theorem c3_raises_iff_not_loaded (ext : Ext) (st : ProcState) (out : PyStr) (f : Flags) :
    (∃ e, explainify_notebook ext st out f = Except.error e) ↔ st.notebook = none := by
  rcases st with ⟨nb, np⟩
  cases nb <;> simp [explainify_notebook]

end NbExplainify

namespace NbExplainify

/-- Counterexample to claim C6 as stated: with no credential configured and a
loaded notebook, explainify_notebook completes normally with every pass
attempted and the notebook saved; the missing-credential error never reaches
the caller and does not stop the pipeline. -/
theorem c6_counterexample :
    LLMProcessor.init extNoKey
      = Except.error (PyErr.valueError "OPENAI_API_KEY must be set in .env file")
    ∧ explainify_notebook extNoKey
        { notebook := some [Cell.mk CellType.code "x = 1".toList], notebook_path := none }
        "out.ipynb".toList allFlags
      = Except.ok ({ notebook := some [Cell.mk CellType.code "x = 1".toList],
                       notebook_path := none }, actualOrder, none) :=
  ⟨rfl, rfl⟩

/-- Claim C6 amended: a missing or empty credential makes LLMProcessor
construction raise ValueError, but the construction happens inside each
generation pass and explainify_notebook catches each pass failure as a warning:
the error is never propagated to the caller, every enabled pass is still
attempted in order, and only the keyless formatting pass changes the cells. -/
theorem c6_missing_key_downgraded (ext : Ext) (cells : List Cell) (np : Option PyStr)
    (out : PyStr) (f : Flags) (hkey : pyFalsyStr ext.api_key = true) :
    LLMProcessor.init ext
      = Except.error (PyErr.valueError "OPENAI_API_KEY must be set in .env file")
    ∧ ∃ w, explainify_notebook ext { notebook := some cells, notebook_path := np } out f
      = Except.ok ({ notebook := some (if f.to_format then format_code_cells ext cells else cells),
                       notebook_path := np }, actualOrder.filter (passEnabled f), w) := by
  have hinit : LLMProcessor.init ext
      = Except.error (PyErr.valueError "OPENAI_API_KEY must be set in .env file") := by
    simp [LLMProcessor.init, hkey]
  refine ⟨hinit, ⟨?_, ?_⟩⟩
  · exact match save_notebook ext { notebook := some (if f.to_format then format_code_cells ext cells else cells), notebook_path := np } (some out) with
      | Except.ok _ => none
      | Except.error e => some e
  rw [filter_actualOrder]
  simp only [explainify_notebook, add_intro, add_markdown_explanations, optimize_code_cells,
    add_comments_to_code_cells, add_summary, hinit, catchPass, Except.map, ite_self]

/-- Witness for the amended claim C6, at the keyless environment and a
one-code-cell notebook. -/
theorem c6_missing_key_downgraded_witness :
    LLMProcessor.init extNoKey
      = Except.error (PyErr.valueError "OPENAI_API_KEY must be set in .env file")
    ∧ ∃ w, explainify_notebook extNoKey
        { notebook := some [Cell.mk CellType.code "x = 1".toList], notebook_path := none }
        "out.ipynb".toList allFlags
      = Except.ok ({ notebook := some (if allFlags.to_format then
                         format_code_cells extNoKey [Cell.mk CellType.code "x = 1".toList]
                       else [Cell.mk CellType.code "x = 1".toList]),
                       notebook_path := none }, actualOrder.filter (passEnabled allFlags), w) :=
  c6_missing_key_downgraded extNoKey [Cell.mk CellType.code "x = 1".toList] none
    "out.ipynb".toList allFlags rfl

/-- Claim C4, evaluated at the failing input of a two-code-cell notebook: the
comment pass supplies context None to the generation call for every cell (the
call site passes no context argument), and the optimize pass never reaches a
generation call at all because passing the context to the one-parameter
optimize_code raises TypeError, leaving all cells unchanged; so neither pass
supplies the accumulated contents of code cells 0..n-1 that the claim
describes. -/
theorem c4_no_context_supplied :
    Except.map Prod.snd (add_comments_to_code_cells extOk cells2)
      = Except.ok [("a = 1".toList, (none : Option (List PyStr))), ("b = a + 1".toList, none)]
    ∧ optimize_code_cells extOk cells2
      = Except.ok (cells2, [("a = 1".toList, ([] : List PyStr)), ("b = a + 1".toList, [])])
    ∧ optimize_code_call2 extOk "a = 1".toList []
      = Except.error (PyErr.typeError "optimize_code takes 2 positional arguments but 3 were given")
    ∧ (none : Option (List PyStr)) ≠ some ["a = 1".toList] :=
  ⟨rfl, rfl, rfl, by decide⟩

/-- Counterexample to claim C5 as stated: an original input containing the
marker # but none of def, class or import skips truncation entirely and the
prose prefix of the response is kept, while the claimed five-marker rule would
have truncated the response at the # marker. -/
theorem c5_counterexample :
    optimize_code extHash "# comment only".toList = Except.ok "Here:\n# comment only".toList
    ∧ pyContains "# comment only".toList "#".toList = true
    ∧ optimizeTruncSpecClaimed "# comment only".toList
        (cleanResponse "Here:\n# comment only".toList) = "# comment only".toList
    ∧ "Here:\n# comment only".toList ≠ "# comment only".toList :=
  ⟨rfl, by decide, rfl, by decide⟩

theorem markerStep_le (s : PyStr) (init : Nat) (m : PyStr) : markerStep s init m ≤ init := by
  rcases h : substrFind s m with _ | p
  · simp [markerStep, h]
  · simp only [markerStep, h]
    split <;> omega

theorem markerStep_le_found (s : PyStr) (init : Nat) (m : PyStr) (p : Nat)
    (hp : substrFind s m = some p) : markerStep s init m ≤ p := by
  simp only [markerStep, hp]
  split <;> omega

theorem markerStep_cases (s : PyStr) (init : Nat) (m : PyStr) :
    markerStep s init m = init ∨ substrFind s m = some (markerStep s init m) := by
  rcases h : substrFind s m with _ | p
  · left; simp [markerStep, h]
  · by_cases hpi : p < init
    · right; simp [markerStep, h, hpi]
    · left; simp [markerStep, h, hpi]

theorem markerFold_le_init (s : PyStr) (ms : List PyStr) (init : Nat) :
    ms.foldl (markerStep s) init ≤ init := by
  induction ms generalizing init with
  | nil => exact Nat.le_refl init
  | cons m0 ms ih =>
    exact Nat.le_trans (ih (markerStep s init m0)) (markerStep_le s init m0)

theorem markerFold_le_found (s : PyStr) (ms : List PyStr) (init : Nat) (m : PyStr)
    (hm : m ∈ ms) (p : Nat) (hp : substrFind s m = some p) :
    ms.foldl (markerStep s) init ≤ p := by
  induction ms generalizing init with
  | nil => cases hm
  | cons m0 ms ih =>
    rcases List.mem_cons.mp hm with rfl | hmem
    · exact Nat.le_trans (markerFold_le_init s ms (markerStep s init m))
        (markerStep_le_found s init m p hp)
    · exact ih (markerStep s init m0) hmem

theorem markerFold_mem (s : PyStr) (ms : List PyStr) (init : Nat) :
    ms.foldl (markerStep s) init = init
    ∨ ∃ m ∈ ms, substrFind s m = some (ms.foldl (markerStep s) init) := by
  induction ms generalizing init with
  | nil => left; rfl
  | cons m0 ms ih =>
    have hfold : (m0 :: ms).foldl (markerStep s) init
        = ms.foldl (markerStep s) (markerStep s init m0) := rfl
    rcases ih (markerStep s init m0) with h1 | ⟨m, hmem, hfind⟩
    · rcases markerStep_cases s init m0 with h2 | h2
      · left; rw [hfold, h1, h2]
      · right
        refine ⟨m0, List.mem_cons_self m0 ms, ?_⟩
        rw [hfold, h1]
        exact h2
    · right
      refine ⟨m, List.mem_cons_of_mem m0 hmem, ?_⟩
      rw [hfold]
      exact hfind

theorem earliest_truncStart (s : PyStr) : EarliestMarkerIdx s (truncStart s) := by
  refine ⟨markerFold_le_init s codeMarkers s.length,
    fun m hm p hp => markerFold_le_found s codeMarkers s.length m hm p hp, ?_⟩
  exact markerFold_mem s codeMarkers s.length

/-- Claim C5 amended: optimize_code strips code fences from the response and
then, only when the stripped original input contains def, class or import with
a trailing space, truncates the cleaned response to start at the earliest
occurrence of any of the five markers def, class, import, from, # (earliest
index wins; the response length when none occurs); with no def, class or import
in the original, the whole cleaned response is returned. -/
theorem c5_amended (ext : Ext) (code resp : PyStr)
    (hguard : (pyContains (pyStrip code) "def ".toList
      || pyContains (pyStrip code) "class ".toList
      || pyContains (pyStrip code) "import ".toList) = true)
    (hne : (pyStrip code).isEmpty = false)
    (hr : ext.respOptimize (pyStrip code) = Except.ok resp) :
    optimize_code ext code
      = Except.ok (pyStrip ((cleanResponse resp).drop (truncStart (cleanResponse resp))))
    ∧ EarliestMarkerIdx (cleanResponse resp) (truncStart (cleanResponse resp)) := by
  constructor
  · simp only [optimize_code, hne, hr]
    simp only [Bool.false_eq_true, if_false]
    rw [if_pos hguard]
  · exact earliest_truncStart (cleanResponse resp)

/-- Witness for the amended claim C5, realizing the example of the
specification: response prose followed by a def yields exactly the code. -/
theorem c5_amended_witness :
    (optimize_code extC5 "def f(): pass".toList
      = Except.ok (pyStrip ((cleanResponse "Here you go:\ndef f(): pass".toList).drop
          (truncStart (cleanResponse "Here you go:\ndef f(): pass".toList))))
    ∧ EarliestMarkerIdx (cleanResponse "Here you go:\ndef f(): pass".toList)
        (truncStart (cleanResponse "Here you go:\ndef f(): pass".toList)))
    ∧ pyStrip ((cleanResponse "Here you go:\ndef f(): pass".toList).drop
        (truncStart (cleanResponse "Here you go:\ndef f(): pass".toList)))
      = "def f(): pass".toList :=
  ⟨c5_amended extC5 "def f(): pass".toList "Here you go:\ndef f(): pass".toList
      (by decide) (by decide) rfl, by decide⟩

end NbExplainify

namespace NbExplainify

theorem formatCellStep_kind (ext : Ext) (c : Cell) :
    (formatCellStep ext c).cell_type = c.cell_type := by
  unfold formatCellStep
  split
  · split <;> rfl
  · rfl

theorem commentCellStep_kind (ext : Ext) (c : Cell) :
    (commentCellStep ext c).cell_type = c.cell_type := by
  unfold commentCellStep
  split
  · split <;> rfl
  · rfl

theorem optimizeLoop_kinds (ext : Ext) :
    ∀ (cells : List Cell) (context : List PyStr),
      ((optimizeLoop ext cells context).1).map Cell.cell_type = cells.map Cell.cell_type := by
  intro cells
  induction cells with
  | nil => intro context; rfl
  | cons c cs ih =>
    intro context
    by_cases h : c.cell_type = CellType.code
    · simp [optimizeLoop, h, optimize_code_call2, ih]
    · simp [optimizeLoop, h, ih]

theorem runNIPass_kinds (ext : Ext) (cs : List Cell) (p : NIPass) :
    (runNIPass ext cs p).map Cell.cell_type = cs.map Cell.cell_type := by
  cases p with
  | format =>
    show (cs.map (formatCellStep ext)).map Cell.cell_type = cs.map Cell.cell_type
    rw [List.map_map]
    exact List.map_congr_left fun c _ => formatCellStep_kind ext c
  | comment =>
    cases hinit : LLMProcessor.init ext with
    | error e => simp [runNIPass, add_comments_to_code_cells, hinit, catchPass, Except.map]
    | ok u =>
      simp only [runNIPass, add_comments_to_code_cells, hinit, Except.map, catchPass]
      rw [List.map_map]
      exact List.map_congr_left fun c _ => commentCellStep_kind ext c
  | optimize =>
    cases hinit : LLMProcessor.init ext with
    | error e => simp [runNIPass, optimize_code_cells, hinit, catchPass, Except.map]
    | ok u =>
      simp only [runNIPass, optimize_code_cells, hinit, Except.map, catchPass]
      exact optimizeLoop_kinds ext cs []

/-- Claim C7: for every loaded cell list and every sequence of the non-inserting
passes (optimize, comment, format), the resulting cell sequence has the same
kind tag at every position and the same length as the input; these passes only
mutate cell content. -/
theorem c7_non_inserting_preserve (ext : Ext) (ps : List NIPass) (cells : List Cell) :
    (runNIPasses ext ps cells).map Cell.cell_type = cells.map Cell.cell_type
    ∧ (runNIPasses ext ps cells).length = cells.length := by
  have hmap : ∀ (qs : List NIPass) (cs : List Cell),
      (runNIPasses ext qs cs).map Cell.cell_type = cs.map Cell.cell_type := by
    intro qs
    induction qs with
    | nil => intro cs; rfl
    | cons p qs ih =>
      intro cs
      calc (runNIPasses ext (p :: qs) cs).map Cell.cell_type
          = (runNIPasses ext qs (runNIPass ext cs p)).map Cell.cell_type := rfl
        _ = (runNIPass ext cs p).map Cell.cell_type := ih (runNIPass ext cs p)
        _ = cs.map Cell.cell_type := runNIPass_kinds ext cs p
  refine ⟨hmap ps cells, ?_⟩
  have h1 := congrArg List.length (hmap ps cells)
  simpa using h1

theorem markdownLoop_length (ext : Ext) (gen : PyStr → Option (List PyStr) → PyStr)
    (hgen : ∀ code ctx, ext.respExplain code ctx = Except.ok (gen code ctx)) :
    ∀ (cells : List Cell) (context : List PyStr),
      (markdownLoop ext cells context).length = cells.length + countCode cells := by
  intro cells
  induction cells with
  | nil => intro context; rfl
  | cons c cs ih =>
    intro context
    have hg : generate_markdown_explanation ext c.source (some context)
        = Except.ok (pyStrip (gen c.source (some context))) := by
      simp [generate_markdown_explanation, hgen]
    by_cases h : c.cell_type = CellType.code
    · simp only [markdownLoop, if_pos h, hg]
      simp [countCode, List.filter_cons, isCode, h, ih]
      omega
    · simp only [markdownLoop, if_neg h]
      have hb : isCode c = false := by
        simp [isCode, h]
      simp [countCode, List.filter_cons, hb, ih]
      omega

theorem markdownLoop_sublist (ext : Ext) :
    ∀ (cells : List Cell) (context : List PyStr),
      List.Sublist cells (markdownLoop ext cells context) := by
  intro cells
  induction cells with
  | nil => intro context; exact List.nil_sublist _
  | cons c cs ih =>
    intro context
    by_cases h : c.cell_type = CellType.code
    · simp only [markdownLoop, if_pos h]
      cases hg : generate_markdown_explanation ext c.source (some context) with
      | error e => exact List.Sublist.cons₂ c (ih (context ++ [c.source]))
      | ok md => exact List.Sublist.cons _ (List.Sublist.cons₂ c (ih (context ++ [c.source])))
    · simp only [markdownLoop, if_neg h]
      exact List.Sublist.cons₂ c (ih context)

theorem markdownLoop_filter_code (ext : Ext) :
    ∀ (cells : List Cell) (context : List PyStr),
      (markdownLoop ext cells context).filter isCode = cells.filter isCode := by
  intro cells
  induction cells with
  | nil => intro context; rfl
  | cons c cs ih =>
    intro context
    by_cases h : c.cell_type = CellType.code
    · simp only [markdownLoop, if_pos h]
      cases hg : generate_markdown_explanation ext c.source (some context) with
      | error e => simp [List.filter_cons, isCode, h, ih]
      | ok md => simp [List.filter_cons, isCode, h, ih]
    · simp only [markdownLoop, if_neg h]
      simp [List.filter_cons, ih]

theorem markdownLoop_pred (ext : Ext) (gen : PyStr → Option (List PyStr) → PyStr)
    (hgen : ∀ code ctx, ext.respExplain code ctx = Except.ok (gen code ctx)) :
    ∀ (cells : List Cell) (context : List PyStr) (j : Nat) (c : Cell),
      (markdownLoop ext cells context).get? j = some c → c.cell_type = CellType.code →
      0 < j ∧ ∃ m, (markdownLoop ext cells context).get? (j - 1) = some m
        ∧ m.cell_type = CellType.markdown ∧ ∃ ctx2, m.source = pyStrip (gen c.source ctx2) := by
  intro cells
  induction cells with
  | nil =>
    intro context j c hj hc
    simp [markdownLoop] at hj
  | cons hd tl ih =>
    intro context j c hj hc
    have hg : generate_markdown_explanation ext hd.source (some context)
        = Except.ok (pyStrip (gen hd.source (some context))) := by
      simp [generate_markdown_explanation, hgen]
    by_cases h : hd.cell_type = CellType.code
    · rw [show markdownLoop ext (hd :: tl) context
          = Cell.mk CellType.markdown (pyStrip (gen hd.source (some context))) :: hd ::
            markdownLoop ext tl (context ++ [hd.source]) from by
        simp only [markdownLoop, if_pos h, hg]] at hj ⊢
      rcases j with _ | _ | k
      · simp at hj
        rw [← hj] at hc
        simp at hc
      · simp at hj
        refine ⟨Nat.zero_lt_one,
          Cell.mk CellType.markdown (pyStrip (gen hd.source (some context))), rfl, rfl,
          some context, ?_⟩
        rw [← hj]
      · have hj2 : (markdownLoop ext tl (context ++ [hd.source])).get? k = some c := hj
        obtain ⟨hk, m, hm, hmk, hctx⟩ := ih (context ++ [hd.source]) k c hj2 hc
        refine ⟨by omega, m, ?_, hmk, hctx⟩
        have hk1 : k + 2 - 1 = (k - 1) + 2 := by omega
        rw [hk1]
        exact hm
    · rw [show markdownLoop ext (hd :: tl) context = hd :: markdownLoop ext tl context from by
        simp only [markdownLoop, if_neg h]] at hj ⊢
      rcases j with _ | k
      · simp at hj
        rw [← hj] at hc
        exact absurd hc h
      · have hj2 : (markdownLoop ext tl context).get? k = some c := hj
        obtain ⟨hk, m, hm, hmk, hctx⟩ := ih context k c hj2 hc
        refine ⟨Nat.succ_pos k, m, ?_, hmk, hctx⟩
        have hk1 : k + 1 - 1 = (k - 1) + 1 := by omega
        rw [hk1]
        exact hm

/-- Claim C1: when the credential is present and every per-cell generation call
succeeds, the markdown-explanation pass returns a sequence of length
original_length + k for k code cells, the original cells appear in their
original relative order, every code cell of the result is immediately preceded
by a newly inserted markdown cell carrying a generated explanation, and the
code cells themselves are exactly those of the input. -/
theorem c1_markdown_insertion (ext : Ext) (gen : PyStr → Option (List PyStr) → PyStr)
    (cells : List Cell) (hkey : pyFalsyStr ext.api_key = false)
    (hgen : ∀ code ctx, ext.respExplain code ctx = Except.ok (gen code ctx)) :
    ∃ res, add_markdown_explanations ext cells = Except.ok res
      ∧ res.length = cells.length + countCode cells
      ∧ List.Sublist cells res
      ∧ (∀ j c, res.get? j = some c → c.cell_type = CellType.code →
          0 < j ∧ ∃ m, res.get? (j - 1) = some m ∧ m.cell_type = CellType.markdown
            ∧ ∃ ctx2, m.source = pyStrip (gen c.source ctx2))
      ∧ res.filter isCode = cells.filter isCode := by
  refine ⟨markdownLoop ext cells [], ?_, markdownLoop_length ext gen hgen cells [],
    markdownLoop_sublist ext cells [], markdownLoop_pred ext gen hgen cells [],
    markdownLoop_filter_code ext cells []⟩
  simp [add_markdown_explanations, LLMProcessor.init, hkey]

/-- Witness for claim C1, at a concrete three-cell notebook with two code
cells. -/
theorem c1_markdown_insertion_witness :
    ∃ res, add_markdown_explanations extOk cellsW = Except.ok res
      ∧ res.length = cellsW.length + countCode cellsW
      ∧ List.Sublist cellsW res
      ∧ (∀ j c, res.get? j = some c → c.cell_type = CellType.code →
          0 < j ∧ ∃ m, res.get? (j - 1) = some m ∧ m.cell_type = CellType.markdown
            ∧ ∃ ctx2, m.source = pyStrip (genW c.source ctx2))
      ∧ res.filter isCode = cellsW.filter isCode :=
  c1_markdown_insertion extOk genW cellsW rfl (fun _ _ => rfl)

end NbExplainify
